import Mathlib

/-!
Verification of the natural-language specification of
`python/main_metaanalysis.py` (Spectral Relevance Analysis driver for gait
classification models) against a shallow embedding of its logic.

Matrix entries are modelled as rationals (`ℚ`), sample-index vectors as
naturals, and numpy arrays as (nested) lists.  Fallible code (the assert
chain of `load_analysis_data`) is modelled with `Except String`.
-/

namespace GaitMeta

/-! ## Generic list helpers (modelling numpy primitives) -/

/-- Insert a natural number into a list, keeping ascending order. -/
def insertNat (x : ℕ) : List ℕ → List ℕ
  | [] => [x]
  | y :: ys => if x ≤ y then x :: y :: ys else y :: insertNat x ys

/-- Insertion sort for natural numbers, ascending. -/
def sortNat (l : List ℕ) : List ℕ := l.foldr insertNat []

/-- Model of `np.unique`: the distinct values of `l` in ascending order. -/
def unique (l : List ℕ) : List ℕ := sortNat l.dedup

/-- Model of numpy boolean-mask indexing `xs[y == cls]`: keep the entries of
`xs` whose corresponding entry of `y` equals `cls`. -/
def maskFilter {α : Type} (y : List ℕ) (cls : ℕ) (xs : List α) : List α :=
  ((y.zip xs).filter (fun p => p.1 == cls)).map Prod.snd

/-- Model of `np.argmax` over a row: index of the first maximal entry,
tracking the running best index `best` with value `bv`, where `i` is the
index of the head of the remaining list. -/
def argmaxFrom (i best : ℕ) (bv : ℚ) : List ℚ → ℕ
  | [] => best
  | x :: xs => if bv < x then argmaxFrom (i+1) i x xs else argmaxFrom (i+1) best bv xs

/-- Model of `np.argmax` over a row (`axis=1` argmax applies this per row). -/
def argmax : List ℚ → ℕ
  | [] => 0
  | x :: xs => argmaxFrom 1 0 x xs

/-! ## Custom corelay processors (lines 32-39 of the source) -/

/-- Sum of every entry of a 3-D array, modelling `data.sum(keepdims=True)`
(with no `axis` argument numpy sums over ALL axes, producing one scalar). -/
def totalSum (data : List (List (List ℚ))) : ℚ :=
  (data.map (fun m => (m.map (fun r => r.sum)).sum)).sum

/-- Embeds `Normalize.function` (source lines 36-39):
`data = data / data.sum(keepdims=True)` — every entry is divided by the
single global sum of the whole batch. -/
def Normalize (data : List (List (List ℚ))) : List (List (List ℚ)) :=
  data.map (fun m => m.map (fun r => r.map (fun x => x / totalSum data)))

/-- Embeds `Flatten.function` (source lines 32-34):
`data.reshape(data.shape[0], prod(data.shape[1:]))` — all non-sample
dimensions of each sample are flattened into one feature vector. -/
def Flatten (data : List (List (List ℚ))) : List (List ℚ) :=
  data.map List.flatten

/-- Embeds `pipeline.preprocessing = Sequential([Normalize(), Flatten()])`
(source lines 242-245): normalization first, then flattening. -/
def preprocessing (data : List (List (List ℚ))) : List (List ℚ) :=
  Flatten (Normalize data)

/-- Per-sample sum of one sample's (still unflattened) feature array. -/
def sampleSum (m : List (List ℚ)) : ℚ := (m.map (fun r => r.sum)).sum

/-- Modelled from the spec: row-wise normalization as the specification
sentence describes it — "divide each row by its own sum, not a global sum".
This is NOT what the source's `Normalize` does; it exists to be compared
against the embedding of the source. -/
def NormalizePerSample (data : List (List (List ℚ))) : List (List (List ℚ)) :=
  data.map (fun m => m.map (fun r => r.map (fun x => x / sampleSum m)))

/-! ## Constants (source lines 49-55) -/

/-- Embeds `ANALYSIIS_DATA = ['relevance', 'inputs']` (sic, source line 50). -/
def ANALYSIIS_DATA : List String := ["relevance", "inputs"]

/-- Embeds `ANALYSIS_GROUPING = ['ground_truth', 'as_predicted', 'all']`. -/
def ANALYSIS_GROUPING : List String := ["ground_truth", "as_predicted", "all"]

/-- Embeds `ATTRIBUTION_TYPES = ['dom', 'act']`. -/
def ATTRIBUTION_TYPES : List String := ["dom", "act"]

/-- Embeds `MODELS = [...]` (source line 53). -/
def MODELS : List String := ["Cnn1DC8", "Mlp3Layer768Unit", "MlpLinear", "SvmLinearL2C1em1"]

/-- Embeds `FOLDS = [str(f) for f in range(10)] + ['all']` (source line 54),
with the comprehension evaluated to its literal value. -/
def FOLDS : List String :=
  ["0", "1", "2", "3", "4", "5", "6", "7", "8", "9", "all"]

/-! ## Validation messages (source lines 63-68) -/

/-- Render a string the way Python's `repr` does inside a printed list
(single quotes, written here as an escape). -/
def pyRepr (s : String) : String := "\x27" ++ s ++ "\x27"

/-- Render a list of strings the way Python prints it, e.g.
`['dom', 'act']`. -/
def pyList (xs : List String) : String :=
  "[" ++ String.intercalate ", " (xs.map pyRepr) ++ "]"

/-- Render a value in double quotes, as `'"{}"'.format(v)` does. -/
def dquoted (s : String) : String := "\x22" ++ s ++ "\x22"

/-- Message of the project-root assert (source line 63). -/
def rootErrorMsg (input_root : String) : String :=
  "Specified project root folder " ++ dquoted input_root ++ " does not exist!"

/-- Message template of the selector asserts (source lines 64-68):
`'Invalid {argname} argument "{value}". Pick from: {allowed}'`. -/
def invalidArgMsg (argname value : String) (allowed : List String) : String :=
  "Invalid " ++ argname ++ " argument " ++ dquoted value ++ ". Pick from: " ++ pyList allowed

/-- Embeds the assert chain of `load_analysis_data` (source lines 63-68).
Note the argument names used in the messages are copied verbatim from the
source: the `fold`, `analysis_data` and `attribution_type` asserts all say
"Invalid model argument". `root_isdir` models `os.path.isdir(input_root)`. -/
def validateArgs (root_isdir : Bool) (input_root model fold analysis_data
    attribution_type analysis_groups : String) : Except String Unit :=
  if ¬ root_isdir then .error (rootErrorMsg input_root)
  else if ¬ model ∈ MODELS then .error (invalidArgMsg "model" model MODELS)
  else if ¬ fold ∈ FOLDS then .error (invalidArgMsg "model" fold FOLDS)
  else if ¬ analysis_data ∈ ANALYSIIS_DATA then
    .error (invalidArgMsg "model" analysis_data ANALYSIIS_DATA)
  else if ¬ attribution_type ∈ ATTRIBUTION_TYPES then
    .error (invalidArgMsg "model" attribution_type ATTRIBUTION_TYPES)
  else if ¬ analysis_groups ∈ ANALYSIS_GROUPING then
    .error (invalidArgMsg "analysis_groups" analysis_groups ANALYSIS_GROUPING)
  else .ok ()

/-! ## Data loader (source lines 57-125) -/

/-- Integer value of a fold string, modelling `int(fold)` on the digit
strings of `FOLDS` (the only strings it is applied to after validation):
base-10 digit accumulation over the characters. -/
def foldInt (f : String) : ℕ :=
  f.data.foldl (fun acc c => 10 * acc + (c.toNat - 48)) 0

/-- Embeds source lines 79-82: `'all'` resolves to
`[int(f) for f in FOLDS if f != 'all']`, anything else to `[int(fold)]`. -/
def resolveFolds (fold : String) : List ℕ :=
  if fold = "all" then (FOLDS.filter (fun f => f ≠ "all")).map foldInt
  else [foldInt fold]

/-- Contents of the persisted `.mat` files consumed by `load_analysis_data`,
with per-fold `outputs.mat` contents modelled as functions of the fold
index. Row matrices are indexed by original sample id. -/
structure LoadedData where
  /-- `targets.mat` key `Y` (binary health labels, one-hot rows). -/
  targets_health_Y : List (List ℚ)
  /-- `targets_injurytypes.mat` key `Y` (injury sublabels, one-hot rows). -/
  targets_injurytypes_Y : List (List ℚ)
  /-- `subject_labels.mat` key `LS` (subject identity, one-hot rows). -/
  subject_labels_LS : List (List ℚ)
  /-- `data.mat` key `X` (raw input features per sample). -/
  data_X : List (List ℚ)
  /-- `permutation.mat` key `P` (row `P[0]`, a sample permutation). -/
  permutation_P : List ℕ
  /-- `splits.mat` key `S` (per-fold test index arrays `S[0,f][0]`). -/
  splits_S : List (List ℕ)
  /-- `outputs.mat` key `y_pred` for fold `f` (predicted probabilities). -/
  outputs_y_pred : ℕ → List (List ℚ)
  /-- `outputs.mat` key `R_pred_dom_epsilon` for fold `f`. -/
  outputs_R_dom : ℕ → List (List ℚ)
  /-- `outputs.mat` key `R_pred_act_epsilon` for fold `f`. -/
  outputs_R_act : ℕ → List (List ℚ)

/-- Embeds `np.concatenate([splits['S'][0,f][0] for f in fold], axis=0)`
(source line 84). -/
def split_indices_of (d : LoadedData) (folds : List ℕ) : List ℕ :=
  (folds.map (fun f => d.splits_S.getD f [])).flatten

/-- Embeds the `y_pred` accumulation and concatenation of source lines
85-91. -/
def y_pred_of (d : LoadedData) (folds : List ℕ) : List (List ℚ) :=
  (folds.map d.outputs_y_pred).flatten

/-- Embeds the `R` accumulation and concatenation of source lines 85-92,
selecting `R_pred_{attribution_type}_epsilon` per fold. -/
def R_of (d : LoadedData) (folds : List ℕ) (attribution_type : String) : List (List ℚ) :=
  (folds.map (fun f =>
    if attribution_type = "dom" then d.outputs_R_dom f else d.outputs_R_act f)).flatten

/-- Model of numpy fancy indexing `m[idx]`: the rows of `m` at the listed
positions (out-of-range reads, which do not occur on well-formed data,
give `[]`). -/
def selectRows (m : List (List ℚ)) (idx : List ℕ) : List (List ℚ) :=
  idx.map (fun i => m.getD i [])

/-- Embeds `true_injury_sublabels = targets_injurytypes['Y'][split_indices]`
(source line 94). -/
def true_injury_of (d : LoadedData) (folds : List ℕ) : List (List ℚ) :=
  selectRows d.targets_injurytypes_Y (split_indices_of d folds)

/-- Embeds `true_health_labels = targets_health['Y'][split_indices]`
(source line 95). -/
def true_health_of (d : LoadedData) (folds : List ℕ) : List (List ℚ) :=
  selectRows d.targets_health_Y (split_indices_of d folds)

/-- Embeds `true_subject_labels = targets_subject['LS'][permutation['P'][0]][split_indices]`
(source line 96). -/
def true_subject_of (d : LoadedData) (folds : List ℕ) : List (List ℚ) :=
  selectRows (d.permutation_P.map (fun i => d.subject_labels_LS.getD i []))
    (split_indices_of d folds)

/-- Embeds `inputs = input_data['X'][split_indices]` (source line 97). -/
def inputs_of (d : LoadedData) (folds : List ℕ) : List (List ℚ) :=
  selectRows d.data_X (split_indices_of d folds)

/-- Embeds source lines 98-102: the data to analyze is `R` (the loaded
attributions), replaced by `inputs` when `analysis_data == 'inputs'`. -/
def analysis_R_of (d : LoadedData) (folds : List ℕ)
    (analysis_data attribution_type : String) : List (List ℚ) :=
  if analysis_data = "inputs" then inputs_of d folds else R_of d folds attribution_type

/-- Embeds the grouping label vector `y` of source lines 105-110:
argmax of predictions, argmax of true health labels, or all zeros. -/
def grouping_y (analysis_groups : String) (y_pred true_health : List (List ℚ)) : List ℕ :=
  if analysis_groups = "as_predicted" then y_pred.map argmax
  else if analysis_groups = "ground_truth" then true_health.map argmax
  else List.replicate y_pred.length 0

/-- The grouping label vector of a run, combining source lines 85-95 and
105-110. -/
def y_of (d : LoadedData) (folds : List ℕ) (analysis_groups : String) : List ℕ :=
  grouping_y analysis_groups (y_pred_of d folds) (true_health_of d folds)

/-- One evaluation group, embedding the dict built at source lines 115-124. -/
structure EvalGroup where
  /-- Group label `cls`. -/
  cls : ℕ
  /-- `y[y == cls]`. -/
  y : List ℕ
  /-- `R[y == cls]` — data to be analyzed (relevances or inputs). -/
  R : List (List ℚ)
  /-- `true_injury_sublabels[y == cls]`. -/
  y_injury_type : List (List ℚ)
  /-- `true_health_labels[y == cls]`. -/
  y_health_type : List (List ℚ)
  /-- `true_subject_labels[y == cls]`. -/
  y_subject : List (List ℚ)
  /-- `split_indices[y == cls]`. -/
  split_indices : List ℕ
  /-- `inputs[y == cls]`. -/
  inputs : List (List ℚ)
  /-- `relevances[y == cls]`. -/
  relevances : List (List ℚ)

/-- Embeds the group-building loop of source lines 113-125: one group per
value of `np.unique y`, each holding the mask-filtered per-sample arrays. -/
def evaluation_groups_of (y : List ℕ) (R injury health subject : List (List ℚ))
    (split_indices : List ℕ) (inputs relevances : List (List ℚ)) : List EvalGroup :=
  (unique y).map (fun cls =>
    ⟨cls, maskFilter y cls y, maskFilter y cls R, maskFilter y cls injury,
      maskFilter y cls health, maskFilter y cls subject, maskFilter y cls split_indices,
      maskFilter y cls inputs, maskFilter y cls relevances⟩)

/-- Embeds `load_analysis_data` (source lines 58-125).  `root_isdir` models
the `os.path.isdir(input_root)` check; `d` holds the contents of the `.mat`
files that the function would read AFTER validation succeeds.  The result is
the list of evaluation groups, or the message of the first failing assert. -/
def load_analysis_data (root_isdir : Bool) (input_root model fold analysis_data
    attribution_type analysis_groups : String) (d : LoadedData) :
    Except String (List EvalGroup) :=
  match validateArgs root_isdir input_root model fold analysis_data
      attribution_type analysis_groups with
  | .error e => .error e
  | .ok _ =>
    let folds := resolveFolds fold
    .ok (evaluation_groups_of (y_of d folds analysis_groups)
      (analysis_R_of d folds analysis_data attribution_type)
      (true_injury_of d folds) (true_health_of d folds) (true_subject_of d folds)
      (split_indices_of d folds) (inputs_of d folds) (R_of d folds attribution_type))

/-! ## Run configuration and `args_to_stuff` (source lines 128-137, 185-206) -/

/-- The parsed command line arguments (source lines 185-206).  The float
`tsne_perplexity` is modelled as a rational; `show_figs` models the
`show` flag (a Lean keyword). -/
structure Args where
  /-- `--random_seed`. -/
  random_seed : String
  /-- `--analysis_groups`. -/
  analysis_groups : String
  /-- `--group_index`. -/
  group_index : String
  /-- `--analysis_data`. -/
  analysis_data : String
  /-- `--attribution_type`. -/
  attribution_type : String
  /-- `--input_root`. -/
  input_root : String
  /-- `--model`. -/
  model : String
  /-- `--fold`. -/
  fold : String
  /-- `--min_clusters`. -/
  min_clusters : Int
  /-- `--max_clusters`. -/
  max_clusters : Int
  /-- `--neighbors_affinity`. -/
  neighbors_affinity : Int
  /-- `--number_eigen`. -/
  number_eigen : Int
  /-- `--tsne_perplexity`. -/
  tsne_perplexity : ℚ
  /-- `--cmap_injury`. -/
  cmap_injury : String
  /-- `--cmap_subject`. -/
  cmap_subject : String
  /-- `--cmap_clustering`. -/
  cmap_clustering : String
  /-- `--output`. -/
  output : String
  /-- `--show`. -/
  show_figs : Bool
  /-- `--save_results`. -/
  save_results : Bool

/-- Lexicographic comparison of char lists by code point, modelling
Python string comparison. -/
def charsLe : List Char → List Char → Bool
  | [], _ => true
  | _ :: _, [] => false
  | a :: as, b :: bs =>
    if a.toNat < b.toNat then true
    else if b.toNat < a.toNat then false
    else charsLe as bs

/-- String order used by `natsorted` on digit-free names: on strings
without digit runs, natural sort coincides with plain code-point order. -/
def strLe (a b : String) : Bool := charsLe a.data b.data

/-- Order-preserving insertion for the string sort. -/
def insertStr (x : String) : List String → List String
  | [] => [x]
  | y :: ys => if strLe x y then x :: y :: ys else y :: insertStr x ys

/-- Model of `natsorted` on a list of digit-free names: insertion sort by
code-point order. -/
def natsorted (l : List String) : List String := l.foldr insertStr []

/-- Embeds `relevant_keys` (source lines 130-132), in source-literal order. -/
def relevant_keys : List String :=
  ["random_seed", "analysis_data", "analysis_groups", "group_index", "attribution_type",
   "model", "fold", "min_clusters", "max_clusters",
   "neighbors_affinity", "tsne_perplexity", "cmap_injury", "cmap_subject", "cmap_clustering"]

/-- Embeds `getattr(ARGS, k)` followed by `'{}'.format(...)` for the keys
in `relevant_keys`: the string form of the named configuration field. -/
def getArg (a : Args) : String → String
  | "random_seed" => a.random_seed
  | "analysis_data" => a.analysis_data
  | "analysis_groups" => a.analysis_groups
  | "group_index" => a.group_index
  | "attribution_type" => a.attribution_type
  | "model" => a.model
  | "fold" => a.fold
  | "min_clusters" => toString a.min_clusters
  | "max_clusters" => toString a.max_clusters
  | "neighbors_affinity" => toString a.neighbors_affinity
  | "tsne_perplexity" => toString a.tsne_perplexity
  | "cmap_injury" => a.cmap_injury
  | "cmap_subject" => a.cmap_subject
  | "cmap_clustering" => a.cmap_clustering
  | _ => ""

/-- Embeds `args_to_stuff` (source lines 128-137): the natsorted relevant
keys joined into a folder name and an argument-record string. -/
def args_to_stuff (a : Args) : String × String :=
  let ks := natsorted relevant_keys
  (String.intercalate "-" (ks.map (fun k => getArg a k)),
   String.intercalate "  " (ks.map (fun k => "--" ++ k ++ " " ++ getArg a k)))

/-- Embeds `output_dir = '{}/{}'.format(ARGS.output, output_dir)`
(source lines 317-318): the full output subdirectory the persister uses. -/
def output_dir_of (a : Args) : String :=
  a.output ++ "/" ++ (args_to_stuff a).1

/-! ## t-SNE embedding centering (source line 256) -/

/-- Embeds `tsne_embedding -= np.mean(tsne_embedding, axis=0)` for the 2-D
t-SNE embedding: subtract the per-coordinate mean across samples. -/
def center_tsne (emb : List (ℚ × ℚ)) : List (ℚ × ℚ) :=
  let mx := (emb.map Prod.fst).sum / emb.length
  let my := (emb.map Prod.snd).sum / emb.length
  emb.map (fun p => (p.1 - mx, p.2 - my))

/-! ## Result persister step (source lines 313-333) -/

/-- Message of source line 315. -/
def collisionMsg (output : String) : String :=
  "Can not save results in " ++ dquoted output ++ ", exists as FILE already!"

/-- Outcome of the saving block for one group: nothing (saving disabled),
a printed collision report, or a save into the parameter-named directory.
No constructor models an exception: the block raises none. -/
inductive PersistOutcome where
  /-- `save_results` was not set; the block is skipped. -/
  | notSaved : PersistOutcome
  /-- `os.path.isfile(ARGS.output)` held: the message is printed and the
  loop moves on. -/
  | reported : String → PersistOutcome
  /-- Results were written below the given directory. -/
  | savedTo : String → PersistOutcome
deriving DecidableEq

/-- Embeds the per-group saving block of `main` (source lines 313-333):
report (do not raise) on an output-root file collision, otherwise save into
the `args_to_stuff`-named subdirectory. `output_isfile` models
`os.path.isfile(ARGS.output)`. -/
def persistGroup (a : Args) (output_isfile : Bool) : PersistOutcome :=
  if a.save_results then
    if output_isfile then .reported (collisionMsg a.output)
    else .savedTo (output_dir_of a)
  else .notSaved

/-- Embeds the group iteration of `main` restricted to its persistence
effect (source lines 217, 313-333): every group is visited in order and the
saving block runs for each; nothing aborts the loop. -/
def mainSaveLoop (a : Args) (output_isfile : Bool) (gs : List EvalGroup) :
    List PersistOutcome :=
  gs.map (fun _ => persistGroup a output_isfile)

/-! ## Subject color remapping (source lines 158-176) -/

/-- Embeds `cmap_limits` (source line 164): discrete capacity of the known
qualitative matplotlib color maps. -/
def cmap_limits : List (String × ℕ) :=
  [("Pastel1", 9), ("Pastel2", 8), ("Paired", 12), ("Accent", 8), ("Dark2", 8),
   ("Set1", 9), ("Set2", 8), ("Set3", 12), ("tab10", 10), ("tab20", 20),
   ("tab20b", 20), ("tab20c", 20)]

/-- Embeds `enum_map`/`enum_labels` of `custom_subject_cmap` (source lines
165-168): each label is replaced by its position in the sorted list of
distinct labels (`np.unique` already sorts, so the extra `np.sort` is the
identity).  The subsequent color lookup `cmap(i / unique_labels.size)`
consumes these indices unchanged. -/
def enum_labels (labels : List ℕ) : List ℕ :=
  labels.map (fun l => (unique labels).indexOf l)

/-- Embeds the warning condition of `custom_subject_cmap` (source lines
170-172): the map is one of the known qualitative maps and the number of
distinct labels exceeds its capacity. -/
def subject_cmap_warns (labels : List ℕ) (cmap : String) : Bool :=
  match cmap_limits.lookup cmap with
  | some lim => decide ((unique labels).length > lim)
  | none => false

/-! ## Concrete sample data for witnesses -/

/-- A small concrete `LoadedData` instance: 4 original samples, folds 0 and
1 holding two test samples each, integer-valued matrices. -/
def demoData : LoadedData :=
  ⟨[[1, 0], [0, 1], [1, 0], [0, 1]],
   [[1, 0, 0, 0], [0, 1, 0, 0], [0, 0, 1, 0], [0, 0, 0, 1]],
   [[1, 0], [0, 1], [1, 0], [0, 1]],
   [[1, 2], [3, 4], [5, 6], [7, 8]],
   [0, 1, 2, 3],
   [[0, 1], [2, 3], [], [], [], [], [], [], [], []],
   fun f => if f = 0 then [[9, 1], [2, 8]] else if f = 1 then [[6, 4], [3, 7]] else [],
   fun f => if f = 0 then [[10, 20], [30, 40]] else if f = 1 then [[50, 60], [70, 80]] else [],
   fun f => if f = 0 then [[11, 21], [31, 41]] else if f = 1 then [[51, 61], [71, 81]] else []⟩

/-- A concrete argument record with the script's default values. -/
def demoArgs : Args :=
  ⟨"0xDEADBEEF", "ground_truth", "all", "relevance", "act",
   "./data_metaanalysis/in", "Cnn1DC8", "0", 3, 8, 3, 8, 30,
   "custom", "viridis", "Set2", "./output_metaanalysis/out", false, true⟩

/-- The input of the C1 analysis: two samples of shape 1 x 2 whose global
sum is 4 but whose per-sample sums are 1 and 3. -/
def c1_data : List (List (List ℚ)) := [[[1, 0]], [[0, 3]]]

/-! ## Helper lemmas about `unique` -/

theorem insertNat_perm (x : ℕ) (l : List ℕ) : (insertNat x l).Perm (x :: l) := by
  induction l with
  | nil => simp [insertNat]
  | cons y ys ih =>
    by_cases h : x ≤ y
    · simp [insertNat, h]
    · simp only [insertNat, if_neg h]
      exact (ih.cons y).trans (List.Perm.swap x y ys)

theorem sortNat_perm (l : List ℕ) : (sortNat l).Perm l := by
  induction l with
  | nil => simp [sortNat]
  | cons a t ih => exact (insertNat_perm a (sortNat t)).trans (ih.cons a)

theorem unique_perm_dedup (l : List ℕ) : (unique l).Perm l.dedup := sortNat_perm l.dedup

theorem mem_unique {v : ℕ} {l : List ℕ} : v ∈ unique l ↔ v ∈ l := by
  rw [(unique_perm_dedup l).mem_iff, List.mem_dedup]

theorem nodup_unique (l : List ℕ) : (unique l).Nodup :=
  (unique_perm_dedup l).nodup_iff.mpr (List.nodup_dedup l)

theorem unique_replicate_zero (n : ℕ) (h : 0 < n) :
    unique (List.replicate n (0 : ℕ)) = [0] := by
  have hd : (List.replicate n (0 : ℕ)).dedup = [0] := by
    induction n with
    | zero => cases h
    | succ m ih =>
      rcases Nat.eq_zero_or_pos m with rfl | hm
      · rfl
      · rw [List.replicate_succ, List.dedup_cons_of_mem (by simp [List.mem_replicate, hm.ne'])]
        exact ih hm
  simp [unique, hd, sortNat, insertNat]

/-! ## Helper lemmas about `maskFilter` -/

theorem maskFilter_self (y : List ℕ) (cls : ℕ) :
    maskFilter y cls y = y.filter (fun v => v == cls) := by
  induction y with
  | nil => rfl
  | cons a t ih =>
    by_cases h : (a == cls) <;>
      simp_all [maskFilter, List.zip_cons_cons, List.filter_cons, h]

theorem maskFilter_replicate_zero {α : Type} (n : ℕ) (xs : List α) (h : xs.length = n) :
    maskFilter (List.replicate n 0) 0 xs = xs := by
  induction n generalizing xs with
  | zero =>
    rw [List.length_eq_zero.mp h]
    rfl
  | succ m ih =>
    cases xs with
    | nil => simp at h
    | cons x t =>
      have ht : t.length = m := by simpa using h
      simp [List.replicate_succ, maskFilter, List.zip_cons_cons, List.filter_cons] at *
      simpa [maskFilter] using ih t ht

/-! ## Counting lemmas for the group partition -/

theorem sum_map_add {α : Type} (l : List α) (f g : α → ℕ) :
    (l.map (fun x => f x + g x)).sum = (l.map f).sum + (l.map g).sum := by
  induction l with
  | nil => rfl
  | cons a t ih => simp [ih]; omega

theorem sum_indicator_one (a : ℕ) (us : List ℕ) (h : us.Nodup) (ha : a ∈ us) :
    (us.map (fun c => if a == c then 1 else 0)).sum = 1 := by
  induction us with
  | nil => cases ha
  | cons u t ih =>
    rcases List.mem_cons.mp ha with rfl | hat
    · have hz : ∀ x ∈ t.map (fun c => if a == c then 1 else 0), x = 0 := by
        intro x hx
        obtain ⟨c, hc, rfl⟩ := List.mem_map.mp hx
        have : a ≠ c := fun e => (List.nodup_cons.mp h).1 (e ▸ hc)
        simp [this]
      have h1 : (if a == a then 1 else 0) = 1 := by simp
      rw [List.map_cons, List.sum_cons, h1, List.sum_eq_zero hz]
      omega
    · have hne : (a == u) = false := by
        have : a ≠ u := fun e => (List.nodup_cons.mp h).1 (e ▸ hat)
        simpa using this
      have h0 : (if a == u then 1 else 0) = 0 := by simp [hne]
      rw [List.map_cons, List.sum_cons, h0, ih (List.nodup_cons.mp h).2 hat]

theorem sum_length_filter_eq (us y : List ℕ) (hnd : us.Nodup) (hm : ∀ v ∈ y, v ∈ us) :
    (us.map (fun c => (y.filter (fun v => v == c)).length)).sum = y.length := by
  induction y with
  | nil => simp
  | cons a t ih =>
    have h1 : ∀ c ∈ us, ((a :: t).filter (fun v => v == c)).length
        = (if a == c then 1 else 0) + (t.filter (fun v => v == c)).length := by
      intro c _
      by_cases h : (a == c)
      · simp [List.filter_cons, h]
        omega
      · simp [List.filter_cons, h]
    calc (us.map fun c => ((a :: t).filter (fun v => v == c)).length).sum
        = (us.map fun c =>
            (if a == c then 1 else 0) + (t.filter (fun v => v == c)).length).sum := by
          rw [List.map_congr_left h1]
      _ = (us.map fun c => if a == c then 1 else 0).sum
          + (us.map fun c => (t.filter (fun v => v == c)).length).sum := sum_map_add us _ _
      _ = 1 + t.length := by
          rw [sum_indicator_one a us hnd (hm a (List.mem_cons_self a t)),
            ih (fun v hv => hm v (List.mem_cons_of_mem a hv))]
      _ = (a :: t).length := by simp [Nat.add_comm]

/-! ## Structure of the produced evaluation groups -/

theorem evaluation_groups_cls (y : List ℕ) (R injury health subject : List (List ℚ))
    (si : List ℕ) (inputs rel : List (List ℚ)) :
    (evaluation_groups_of y R injury health subject si inputs rel).map EvalGroup.cls
      = unique y := by
  unfold evaluation_groups_of
  rw [List.map_map]
  exact List.map_id (unique y)

theorem evaluation_groups_y_mem (y : List ℕ) (R injury health subject : List (List ℚ))
    (si : List ℕ) (inputs rel : List (List ℚ)) :
    ∀ g ∈ evaluation_groups_of y R injury health subject si inputs rel,
      ∀ v ∈ g.y, v = g.cls := by
  intro g hg v hv
  obtain ⟨cls, _, rfl⟩ := List.mem_map.mp hg
  rw [show (⟨cls, maskFilter y cls y, maskFilter y cls R, maskFilter y cls injury,
    maskFilter y cls health, maskFilter y cls subject, maskFilter y cls si,
    maskFilter y cls inputs, maskFilter y cls rel⟩ : EvalGroup).y
      = maskFilter y cls y from rfl, maskFilter_self] at hv
  simpa using (List.mem_filter.mp hv).2

theorem evaluation_groups_count (y : List ℕ) (R injury health subject : List (List ℚ))
    (si : List ℕ) (inputs rel : List (List ℚ)) :
    ((evaluation_groups_of y R injury health subject si inputs rel).map
      (fun g => g.y.length)).sum = y.length := by
  have h : (evaluation_groups_of y R injury health subject si inputs rel).map
      (fun g => g.y.length) = (unique y).map (fun c => (y.filter (fun v => v == c)).length) := by
    simp [evaluation_groups_of, List.map_map, Function.comp, maskFilter_self]
  rw [h]
  exact sum_length_filter_eq (unique y) y (nodup_unique y) (fun v hv => mem_unique.mpr hv)

/-! ## Unfolding `load_analysis_data` at a successful call -/

theorem load_ok_elim {root : Bool}
    {input_root model fold analysis_data attribution_type analysis_groups : String}
    {d : LoadedData} {gs : List EvalGroup}
    (hok : load_analysis_data root input_root model fold analysis_data
      attribution_type analysis_groups d = .ok gs) :
    gs = evaluation_groups_of (y_of d (resolveFolds fold) analysis_groups)
      (analysis_R_of d (resolveFolds fold) analysis_data attribution_type)
      (true_injury_of d (resolveFolds fold)) (true_health_of d (resolveFolds fold))
      (true_subject_of d (resolveFolds fold)) (split_indices_of d (resolveFolds fold))
      (inputs_of d (resolveFolds fold)) (R_of d (resolveFolds fold) attribution_type) := by
  unfold load_analysis_data at hok
  cases hval : validateArgs root input_root model fold analysis_data
      attribution_type analysis_groups with
  | error e => rw [hval] at hok; cases hok
  | ok u => rw [hval] at hok; exact (Except.ok.inj hok).symm

/-! ## Length alignment of the grouping vector -/

theorem length_y_pred_of (d : LoadedData) (folds : List ℕ)
    (halign : ∀ f ∈ folds, (d.outputs_y_pred f).length = (d.splits_S.getD f []).length) :
    (y_pred_of d folds).length = (split_indices_of d folds).length := by
  simp only [y_pred_of, split_indices_of, List.length_flatten, List.map_map]
  exact congrArg List.sum (List.map_congr_left (fun f hf => by simp [halign f hf]))

theorem length_y_of (d : LoadedData) (folds : List ℕ) (analysis_groups : String)
    (halign : ∀ f ∈ folds, (d.outputs_y_pred f).length = (d.splits_S.getD f []).length) :
    (y_of d folds analysis_groups).length = (split_indices_of d folds).length := by
  have hyp := length_y_pred_of d folds halign
  unfold y_of grouping_y
  by_cases h1 : analysis_groups = "as_predicted"
  · simp [h1, hyp]
  · by_cases h2 : analysis_groups = "ground_truth"
    · simp [h1, h2, true_health_of, selectRows]
    · simp [h1, h2, hyp]

/-! ## Claim theorems -/

/-- C2: for every valid selector combination (validity is forced by the
successful return), `load_analysis_data` returns exactly one evaluation
group per distinct value of the grouping label vector `y` (the group labels
are exactly `np.unique y`, without repetition), the groups are disjoint by
construction (every sample in a group carries that group's `y` value), and
the group sample counts sum to the number of samples selected by the
fold/permutation filtering.  `halign` is the raw-dataset invariant that the
per-fold model outputs have one row per test index of that fold. -/
theorem c2_groups_partition (root : Bool)
    (input_root model fold analysis_data attribution_type analysis_groups : String)
    (d : LoadedData) (gs : List EvalGroup)
    (halign : ∀ f ∈ resolveFolds fold,
      (d.outputs_y_pred f).length = (d.splits_S.getD f []).length)
    (hok : load_analysis_data root input_root model fold analysis_data
      attribution_type analysis_groups d = .ok gs) :
    gs.map EvalGroup.cls = unique (y_of d (resolveFolds fold) analysis_groups)
    ∧ (gs.map EvalGroup.cls).Nodup
    ∧ (∀ g ∈ gs, ∀ v ∈ g.y, v = g.cls)
    ∧ (gs.map (fun g => g.y.length)).sum
        = (split_indices_of d (resolveFolds fold)).length := by
  obtain rfl := load_ok_elim hok
  refine ⟨evaluation_groups_cls _ _ _ _ _ _ _ _, ?_, ?_, ?_⟩
  · rw [evaluation_groups_cls]
    exact nodup_unique _
  · exact evaluation_groups_y_mem _ _ _ _ _ _ _ _
  · rw [evaluation_groups_count]
    exact length_y_of d (resolveFolds fold) analysis_groups halign

/-- Witness for C2 at a concrete call: fold 0 of the demo data, grouped by
ground truth (two distinct health labels, two groups of one sample each). -/
theorem c2_groups_partition_witness :
    (∀ f ∈ resolveFolds "0",
      (demoData.outputs_y_pred f).length = (demoData.splits_S.getD f []).length)
    ∧ ∃ gs, load_analysis_data true "." "Cnn1DC8" "0" "relevance" "act" "ground_truth"
          demoData = .ok gs
        ∧ (gs.map (fun g => g.y.length)).sum
            = (split_indices_of demoData (resolveFolds "0")).length :=
  ⟨by decide, ⟨_, rfl,
    (c2_groups_partition true "." "Cnn1DC8" "0" "relevance" "act" "ground_truth"
      demoData _ (by decide) rfl).2.2.2⟩⟩

/-- C4: with grouping policy `"all"` a successful `load_analysis_data` call
returns exactly one evaluation group; its label `cls` is `0` and it covers
every selected sample (its index list, inputs and `y` vector are the whole
filtered arrays). -/
theorem c4_grouping_all_single_group (root : Bool)
    (input_root model fold analysis_data attribution_type : String)
    (d : LoadedData) (gs : List EvalGroup)
    (halign : ∀ f ∈ resolveFolds fold,
      (d.outputs_y_pred f).length = (d.splits_S.getD f []).length)
    (hn : 0 < (y_pred_of d (resolveFolds fold)).length)
    (hok : load_analysis_data root input_root model fold analysis_data
      attribution_type "all" d = .ok gs) :
    gs.length = 1 ∧ ∀ g ∈ gs, g.cls = 0
      ∧ g.split_indices = split_indices_of d (resolveFolds fold)
      ∧ g.inputs = inputs_of d (resolveFolds fold)
      ∧ g.y = List.replicate (split_indices_of d (resolveFolds fold)).length 0 := by
  obtain rfl := load_ok_elim hok
  have hy : y_of d (resolveFolds fold) "all"
      = List.replicate (y_pred_of d (resolveFolds fold)).length 0 := by
    unfold y_of grouping_y
    rw [if_neg (by decide), if_neg (by decide)]
  have hnsplit : (y_pred_of d (resolveFolds fold)).length
      = (split_indices_of d (resolveFolds fold)).length :=
    length_y_pred_of d (resolveFolds fold) halign
  have huniq : unique (y_of d (resolveFolds fold) "all") = [0] := by
    rw [hy]
    exact unique_replicate_zero _ hn
  constructor
  · unfold evaluation_groups_of
    rw [huniq]
    rfl
  · intro g hg
    unfold evaluation_groups_of at hg
    rw [huniq] at hg
    simp only [List.map_cons, List.map_nil, List.mem_singleton] at hg
    subst hg
    refine ⟨rfl, ?_, ?_, ?_⟩
    · show maskFilter (y_of d (resolveFolds fold) "all") 0
        (split_indices_of d (resolveFolds fold)) = _
      rw [hy]
      exact maskFilter_replicate_zero _ _ hnsplit.symm
    · show maskFilter (y_of d (resolveFolds fold) "all") 0
        (inputs_of d (resolveFolds fold)) = _
      rw [hy]
      refine maskFilter_replicate_zero _ _ ?_
      rw [hnsplit]
      simp [inputs_of, selectRows]
    · show maskFilter (y_of d (resolveFolds fold) "all") 0
        (y_of d (resolveFolds fold) "all") = _
      rw [hy, maskFilter_replicate_zero _ _ (by simp), hnsplit]

/-- Witness for C4: fold 0 of the demo data with grouping `"all"` yields a
single group labelled 0 covering both selected samples. -/
theorem c4_grouping_all_single_group_witness :
    ((∀ f ∈ resolveFolds "0",
        (demoData.outputs_y_pred f).length = (demoData.splits_S.getD f []).length)
      ∧ 0 < (y_pred_of demoData (resolveFolds "0")).length)
    ∧ ∃ gs, load_analysis_data true "." "Cnn1DC8" "0" "relevance" "act" "all"
          demoData = .ok gs
        ∧ gs.length = 1 ∧ ∀ g ∈ gs, g.cls = 0
          ∧ g.split_indices = split_indices_of demoData (resolveFolds "0")
          ∧ g.inputs = inputs_of demoData (resolveFolds "0")
          ∧ g.y = List.replicate (split_indices_of demoData (resolveFolds "0")).length 0 :=
  ⟨⟨by decide, by decide⟩, ⟨_, rfl,
    c4_grouping_all_single_group true "." "Cnn1DC8" "0" "relevance" "act"
      demoData _ (by decide) (by decide) rfl⟩⟩

/-- C5: the fold selector `"all"` resolves to the ascending list of all ten
fold identifiers and any other valid fold selector to the singleton of its
numeric value; the per-fold model outputs are concatenated across the
resolved folds in exactly that order. -/
theorem c5_fold_resolution (d : LoadedData) (fold : String)
    (_hmem : fold ∈ FOLDS) (hne : fold ≠ "all") :
    resolveFolds "all" = [0, 1, 2, 3, 4, 5, 6, 7, 8, 9]
    ∧ y_pred_of d (resolveFolds "all")
        = d.outputs_y_pred 0 ++ d.outputs_y_pred 1 ++ d.outputs_y_pred 2
          ++ d.outputs_y_pred 3 ++ d.outputs_y_pred 4 ++ d.outputs_y_pred 5
          ++ d.outputs_y_pred 6 ++ d.outputs_y_pred 7 ++ d.outputs_y_pred 8
          ++ d.outputs_y_pred 9
    ∧ resolveFolds fold = [foldInt fold]
    ∧ y_pred_of d (resolveFolds fold) = d.outputs_y_pred (foldInt fold) := by
  have h1 : resolveFolds "all" = [0, 1, 2, 3, 4, 5, 6, 7, 8, 9] := by decide
  refine ⟨h1, ?_, ?_, ?_⟩
  · rw [h1]
    simp [y_pred_of]
  · simp [resolveFolds, hne]
  · simp [resolveFolds, hne, y_pred_of]

/-- Witness for C5 at the concrete fold selector `"3"`. -/
theorem c5_fold_resolution_witness :
    ("3" ∈ FOLDS ∧ "3" ≠ "all")
    ∧ (resolveFolds "all" = [0, 1, 2, 3, 4, 5, 6, 7, 8, 9]
      ∧ y_pred_of demoData (resolveFolds "all")
          = demoData.outputs_y_pred 0 ++ demoData.outputs_y_pred 1
            ++ demoData.outputs_y_pred 2 ++ demoData.outputs_y_pred 3
            ++ demoData.outputs_y_pred 4 ++ demoData.outputs_y_pred 5
            ++ demoData.outputs_y_pred 6 ++ demoData.outputs_y_pred 7
            ++ demoData.outputs_y_pred 8 ++ demoData.outputs_y_pred 9
      ∧ resolveFolds "3" = [foldInt "3"]
      ∧ y_pred_of demoData (resolveFolds "3") = demoData.outputs_y_pred (foldInt "3")) :=
  ⟨⟨by decide, by decide⟩, c5_fold_resolution demoData "3" (by decide) (by decide)⟩

/-- C6: when the data-kind selector is `"inputs"`, every group returned by
a successful `load_analysis_data` call has its analyzed-data matrix `R`
identical to its raw input matrix `inputs`. -/
theorem c6_inputs_identical (root : Bool)
    (input_root model fold attribution_type analysis_groups : String)
    (d : LoadedData) (gs : List EvalGroup)
    (hok : load_analysis_data root input_root model fold "inputs"
      attribution_type analysis_groups d = .ok gs) :
    ∀ g ∈ gs, g.R = g.inputs := by
  obtain rfl := load_ok_elim hok
  intro g hg
  unfold evaluation_groups_of at hg
  obtain ⟨cls, _, rfl⟩ := List.mem_map.mp hg
  show maskFilter _ cls (analysis_R_of d (resolveFolds fold) "inputs" attribution_type)
      = maskFilter _ cls (inputs_of d (resolveFolds fold))
  simp [analysis_R_of]

/-- Witness for C6 at a concrete call with data kind `"inputs"`. -/
theorem c6_inputs_identical_witness :
    ∃ gs, load_analysis_data true "." "Cnn1DC8" "0" "inputs" "act" "ground_truth"
        demoData = .ok gs
      ∧ ∀ g ∈ gs, g.R = g.inputs :=
  ⟨_, rfl, c6_inputs_identical true "." "Cnn1DC8" "0" "act" "ground_truth" demoData _ rfl⟩

/-- C1 (refuting evaluation): the preprocessing `Normalize` divides every
entry by the GLOBAL sum of the whole batch — `data.sum(keepdims=True)` sums
over all axes — not each row by its own sum as the specification sentence
(and the source's own comment, "normalization to compare the structure in
the relevance, not the overall magnitude scaling (which depends on f(x))")
describe.  On `c1_data` (global sum 4, per-sample sums 1 and 3) the two
behaviors differ; the subsequent flattening is as specified. -/
theorem c1_normalize_divides_by_global_sum :
    Normalize c1_data = [[[1/4, 0]], [[0, 3/4]]]
    ∧ NormalizePerSample c1_data = [[[1, 0]], [[0, 1]]]
    ∧ Normalize c1_data ≠ NormalizePerSample c1_data
    ∧ preprocessing c1_data = [[1/4, 0], [0, 3/4]] := by
  have ha : Normalize c1_data = [[[1/4, 0]], [[0, 3/4]]] := by
    norm_num [Normalize, totalSum, c1_data]
  have hb : NormalizePerSample c1_data = [[[1, 0]], [[0, 1]]] := by
    norm_num [NormalizePerSample, sampleSum, c1_data]
  refine ⟨ha, hb, ?_, ?_⟩
  · rw [ha, hb]
    intro h
    norm_num at h
  · rw [preprocessing, ha]
    norm_num [Flatten]

/-- C3 (refuting evaluation): calling `load_analysis_data` with the invalid
fold selector `"Foo"` (all other arguments valid) aborts before the loaded
data is consulted — the result is the same for every `LoadedData` — and the
message quotes the offending value and the full allowed fold set, but it
names the argument `model`, not `fold`: the asserts at source lines 65-67
reuse the "Invalid model argument" template. -/
theorem c3_invalid_fold_error (d d' : LoadedData) (r : String) :
    load_analysis_data true r "Cnn1DC8" "Foo" "relevance" "act" "ground_truth" d
      = .error (invalidArgMsg "model" "Foo" FOLDS)
    ∧ load_analysis_data true r "Cnn1DC8" "Foo" "relevance" "act" "ground_truth" d
      = load_analysis_data true r "Cnn1DC8" "Foo" "relevance" "act" "ground_truth" d'
    ∧ invalidArgMsg "model" "Foo" FOLDS
      = "Invalid model argument \x22Foo\x22. Pick from: [\x270\x27, \x271\x27, \x272\x27, \x273\x27, \x274\x27, \x275\x27, \x276\x27, \x277\x27, \x278\x27, \x279\x27, \x27all\x27]" := by
  have h : ∀ dd : LoadedData,
      load_analysis_data true r "Cnn1DC8" "Foo" "relevance" "act" "ground_truth" dd
        = .error (invalidArgMsg "model" "Foo" FOLDS) := by
    intro dd
    unfold load_analysis_data validateArgs
    rw [if_neg (by decide), if_neg (by decide), if_pos (by decide)]
  exact ⟨h d, (h d).trans (h d').symm, by decide⟩

theorem sum_map_sub (l : List (ℚ × ℚ)) (f : ℚ × ℚ → ℚ) (c : ℚ) :
    (l.map (fun p => f p - c)).sum = (l.map f).sum - l.length * c := by
  induction l with
  | nil => simp
  | cons p t ih =>
    simp [ih]
    ring

/-- C7: after the centering step `tsne_embedding -= np.mean(tsne_embedding,
axis=0)`, the 2-D embedding has exactly zero mean across samples (both
coordinate sums vanish) whenever the group is nonempty. -/
theorem c7_centered_embedding_zero_mean (emb : List (ℚ × ℚ)) (h : 0 < emb.length) :
    ((center_tsne emb).map Prod.fst).sum = 0
    ∧ ((center_tsne emb).map Prod.snd).sum = 0 := by
  have hn : ((emb.length : ℚ)) ≠ 0 := Nat.cast_ne_zero.mpr h.ne'
  have hfst : (center_tsne emb).map Prod.fst
      = emb.map (fun p => p.1 - (emb.map Prod.fst).sum / emb.length) := by
    simp [center_tsne, List.map_map, Function.comp]
  have hsnd : (center_tsne emb).map Prod.snd
      = emb.map (fun p => p.2 - (emb.map Prod.snd).sum / emb.length) := by
    simp [center_tsne, List.map_map, Function.comp]
  constructor
  · rw [hfst, sum_map_sub emb Prod.fst]
    field_simp
  · rw [hsnd, sum_map_sub emb Prod.snd]
    field_simp

/-- Witness for C7 at the concrete two-point embedding `[(1,2),(3,4)]`. -/
theorem c7_centered_embedding_zero_mean_witness :
    0 < ([((1 : ℚ), (2 : ℚ)), (3, 4)]).length
    ∧ ((center_tsne [((1 : ℚ), (2 : ℚ)), (3, 4)]).map Prod.fst).sum = 0
    ∧ ((center_tsne [((1 : ℚ), (2 : ℚ)), (3, 4)]).map Prod.snd).sum = 0 :=
  ⟨by decide,
    (c7_centered_embedding_zero_mean [((1 : ℚ), (2 : ℚ)), (3, 4)] (by decide)).1,
    (c7_centered_embedding_zero_mean [((1 : ℚ), (2 : ℚ)), (3, 4)] (by decide)).2⟩

/-- C8: when saving is enabled and the output root exists as a plain file,
the per-group persistence step only REPORTS the collision (the outcome is
`reported` with the source's message — no outcome models an exception, the
block raises none) and the loop still visits every group: the outcome list
has one entry per group. -/
theorem c8_collision_reported (a : Args) (gs : List EvalGroup)
    (hsave : a.save_results = true) :
    mainSaveLoop a true gs
      = List.replicate gs.length (.reported (collisionMsg a.output))
    ∧ (mainSaveLoop a true gs).length = gs.length := by
  have hp : persistGroup a true = .reported (collisionMsg a.output) := by
    simp [persistGroup, hsave]
  constructor
  · simp [mainSaveLoop, hp, List.map_const']
  · simp [mainSaveLoop]

/-- Two evaluation groups with empty payloads, enough to drive the save
loop. -/
def demoGroups : List EvalGroup :=
  [⟨0, [], [], [], [], [], [], [], []⟩, ⟨1, [], [], [], [], [], [], [], []⟩]

/-- Witness for C8: with `save_results` set and a file collision, both demo
groups produce a report and both are processed. -/
theorem c8_collision_reported_witness :
    demoArgs.save_results = true
    ∧ (mainSaveLoop demoArgs true demoGroups
        = List.replicate demoGroups.length (.reported (collisionMsg demoArgs.output))
      ∧ (mainSaveLoop demoArgs true demoGroups).length = demoGroups.length) :=
  ⟨rfl, c8_collision_reported demoArgs demoGroups rfl⟩

/-- C9: the subject remapping sends every label to an index below the
number of distinct labels, equal labels to equal indices, and the warning
fires when the chosen map is one of the known qualitative maps whose
capacity is exceeded by the distinct-label count. -/
theorem c9_subject_remap (labels : List ℕ) (cmap : String) (lim : ℕ)
    (hcm : cmap_limits.lookup cmap = some lim) (hgt : lim < (unique labels).length) :
    (∀ i ∈ enum_labels labels, i < (unique labels).length)
    ∧ (∀ j k : ℕ, j < labels.length → k < labels.length →
        labels.getD j 0 = labels.getD k 0 →
        (enum_labels labels).getD j 0 = (enum_labels labels).getD k 0)
    ∧ subject_cmap_warns labels cmap = true := by
  refine ⟨?_, ?_, ?_⟩
  · intro i hi
    obtain ⟨l, hl, rfl⟩ := List.mem_map.mp hi
    exact List.indexOf_lt_length.mpr (mem_unique.mpr hl)
  · intro j k hj hk he
    have hlj : j < (enum_labels labels).length := by simpa [enum_labels] using hj
    have hlk : k < (enum_labels labels).length := by simpa [enum_labels] using hk
    rw [List.getD_eq_getElem _ _ hlj, List.getD_eq_getElem _ _ hlk]
    rw [List.getD_eq_getElem _ _ hj, List.getD_eq_getElem _ _ hk] at he
    simp only [enum_labels, List.getElem_map]
    rw [he]
  · simp [subject_cmap_warns, hcm, hgt]

/-- Witness for C9: ten distinct subject labels against `Set2` (capacity
8) stay within `[0, 10)` and trigger the warning. -/
theorem c9_subject_remap_witness :
    (cmap_limits.lookup "Set2" = some 8
      ∧ 8 < (unique [0, 1, 2, 3, 4, 5, 6, 7, 8, 9]).length)
    ∧ ((∀ i ∈ enum_labels [0, 1, 2, 3, 4, 5, 6, 7, 8, 9],
          i < (unique [0, 1, 2, 3, 4, 5, 6, 7, 8, 9]).length)
      ∧ (∀ j k : ℕ, j < ([0, 1, 2, 3, 4, 5, 6, 7, 8, 9] : List ℕ).length →
          k < ([0, 1, 2, 3, 4, 5, 6, 7, 8, 9] : List ℕ).length →
          ([0, 1, 2, 3, 4, 5, 6, 7, 8, 9] : List ℕ).getD j 0
            = ([0, 1, 2, 3, 4, 5, 6, 7, 8, 9] : List ℕ).getD k 0 →
          (enum_labels [0, 1, 2, 3, 4, 5, 6, 7, 8, 9]).getD j 0
            = (enum_labels [0, 1, 2, 3, 4, 5, 6, 7, 8, 9]).getD k 0)
      ∧ subject_cmap_warns [0, 1, 2, 3, 4, 5, 6, 7, 8, 9] "Set2" = true) :=
  ⟨⟨by decide, by decide⟩,
    c9_subject_remap [0, 1, 2, 3, 4, 5, 6, 7, 8, 9] "Set2" 8 (by decide) (by decide)⟩

/-- C10: the folder name and argument record of `args_to_stuff` depend only
on the fixed 14-key list (which excludes `number_eigen`, `input_root`,
`output` and the show/save flags); hence two configurations that agree on
those 14 fields produce identical `args_to_stuff` output, and if they also
share the output root — in particular when they differ ONLY in
`number_eigen` — the persister writes into the same subdirectory. -/
theorem c10_outdir_depends_on_14_fields (a1 a2 : Args)
    (h1 : a1.random_seed = a2.random_seed)
    (h2 : a1.analysis_data = a2.analysis_data)
    (h3 : a1.analysis_groups = a2.analysis_groups)
    (h4 : a1.group_index = a2.group_index)
    (h5 : a1.attribution_type = a2.attribution_type)
    (h6 : a1.model = a2.model)
    (h7 : a1.fold = a2.fold)
    (h8 : a1.min_clusters = a2.min_clusters)
    (h9 : a1.max_clusters = a2.max_clusters)
    (h10 : a1.neighbors_affinity = a2.neighbors_affinity)
    (h11 : a1.tsne_perplexity = a2.tsne_perplexity)
    (h12 : a1.cmap_injury = a2.cmap_injury)
    (h13 : a1.cmap_subject = a2.cmap_subject)
    (h14 : a1.cmap_clustering = a2.cmap_clustering) :
    args_to_stuff a1 = args_to_stuff a2
    ∧ (a1.output = a2.output → output_dir_of a1 = output_dir_of a2) := by
  have hks : natsorted relevant_keys
      = ["analysis_data", "analysis_groups", "attribution_type", "cmap_clustering",
         "cmap_injury", "cmap_subject", "fold", "group_index", "max_clusters",
         "min_clusters", "model", "neighbors_affinity", "random_seed",
         "tsne_perplexity"] := by decide
  have hfun : ∀ k ∈ natsorted relevant_keys, getArg a1 k = getArg a2 k := by
    rw [hks]
    intro k hk
    fin_cases hk <;>
      first
        | assumption
        | exact congrArg toString h8
        | exact congrArg toString h9
        | exact congrArg toString h10
        | exact congrArg toString h11
  have hfun2 : ∀ k ∈ natsorted relevant_keys,
      "--" ++ k ++ " " ++ getArg a1 k = "--" ++ k ++ " " ++ getArg a2 k := by
    intro k hk
    rw [hfun k hk]
  have hstuff : args_to_stuff a1 = args_to_stuff a2 := by
    simp only [args_to_stuff]
    rw [List.map_congr_left hfun, List.map_congr_left hfun2]
  refine ⟨hstuff, fun ho => ?_⟩
  unfold output_dir_of
  rw [ho, hstuff]

/-- The demo arguments with only the eigenvector count changed (8 to 16). -/
def demoArgsEig16 : Args :=
  ⟨"0xDEADBEEF", "ground_truth", "all", "relevance", "act",
   "./data_metaanalysis/in", "Cnn1DC8", "0", 3, 8, 3, 16, 30,
   "custom", "viridis", "Set2", "./output_metaanalysis/out", false, true⟩

/-- Witness for C10: two concrete configurations differing only in
`number_eigen` share both `args_to_stuff` output and the full output
subdirectory. -/
theorem c10_outdir_depends_on_14_fields_witness :
    demoArgs.number_eigen ≠ demoArgsEig16.number_eigen
    ∧ (args_to_stuff demoArgs = args_to_stuff demoArgsEig16
      ∧ (demoArgs.output = demoArgsEig16.output →
          output_dir_of demoArgs = output_dir_of demoArgsEig16)) :=
  ⟨by decide,
    c10_outdir_depends_on_14_fields demoArgs demoArgsEig16
      rfl rfl rfl rfl rfl rfl rfl rfl rfl rfl rfl rfl rfl rfl⟩

end GaitMeta
